import Mathlib

/-
Verification development for the aim-lab target-shooting game.

The embedding follows the later (most complete) variant of the source.
JavaScript numbers holding integer quantities (coordinates, radii,
time-to-die counters, scores, lives, timestamps) are modelled as Int;
the difficulty accumulator, which the source decrements by the
non-integer constant 0.05 per tick, is modelled as a rational number.
Randomness (spawn coordinates) is modelled by passing the drawn
coordinates as explicit oracle arguments. Callback invocations
(didHit and didMiss on the game manager) performed during a controller
update are modelled by returning their invocation counts alongside the
post-update controller state.
-/

/-- Game status enumeration from the source: NewGame, Playing, Paused, GameOver. -/
inductive GameStatus where
  | NewGame
  | Playing
  | Paused
  | GameOver
deriving DecidableEq, BEq, Repr

def TARGET_ENTITY_RADIUS : Int := 25

def TARGET_ENTITY_START_TTD : ℚ := 30

def TARGET_ENTITY_MAX_TTD : Int := 10

def TARGET_ENTITY_TDD_DIFF_PER_UPDATE : ℚ := 0.05

def GAME_LIVES_AT_START : Int := 5

/-- Frame interval from gameConfig: 1000 / 10 milliseconds. -/
def fpsInterval : Int := 1000 / 10

/-- Derived paused predicate of gameConfig: true in Paused, NewGame and GameOver. -/
def gameConfig.paused (status : GameStatus) : Bool :=
  status == GameStatus.Paused ||
  status == GameStatus.NewGame ||
  status == GameStatus.GameOver

/-- Coordinate pair, as used for clicks and entity centers. -/
structure Coordinate where
  x : Int
  y : Int
deriving DecidableEq, Repr

/-- Target entity: position, radius, cached squared radius, ticks to die. -/
structure TargetEntity where
  x : Int
  y : Int
  r : Int
  r2 : Int
  ttd : Int
deriving DecidableEq, Repr

/-- Constructor of TargetEntity: stores r and caches r2 = r squared. -/
def TargetEntity.make (x y r ttd : Int) : TargetEntity :=
  ⟨x, y, r, r ^ 2, ttd⟩

/-- Entity tick: decrements ttd by 1 (the console log side effect is dropped). -/
def TargetEntity.update (e : TargetEntity) : TargetEntity :=
  { e with ttd := e.ttd - 1 }

/-- Collision test: squared distance from center to the point strictly below r2. -/
def TargetEntity.canCollideWith (e : TargetEntity) (c : Coordinate) : Bool :=
  (e.x - c.x) ^ 2 + (e.y - c.y) ^ 2 < e.r2

/-- TargetEntity.random of the source draws coordinates uniformly inside the
padded canvas bounds; the drawn coordinates are passed here as oracle
arguments rx, ry. The radius is the fixed constant and ttd is the given
value. -/
def TargetEntity.random (rx ry ttd : Int) : TargetEntity :=
  TargetEntity.make rx ry TARGET_ENTITY_RADIUS ttd

/-- Controller of target entities: live targets, target limit (default 1),
single-slot pending shot, and the internal difficulty accumulator. The
accumulator field keeps the source name of the private field. -/
structure TargetEntityController where
  targets : List TargetEntity
  targetsLimit : Nat
  shootAt : Option Coordinate
  _currentMaxTdd : ℚ
deriving DecidableEq, Repr

/-- Freshly constructed controller: no targets, limit 1, no pending shot,
accumulator at the starting ttd. -/
def TargetEntityController.new : TargetEntityController :=
  ⟨[], 1, none, TARGET_ENTITY_START_TTD⟩

/-- Getter currentMaxTdd: floor of the accumulator, clamped below by the
minimum constant. -/
def TargetEntityController.currentMaxTdd (c : TargetEntityController) : Int :=
  max (Int.floor c._currentMaxTdd) TARGET_ENTITY_MAX_TTD

/-- Truthiness test of the source condition: shootAt is set and the entity
collides with it. -/
def hitBy (sa : Option Coordinate) (e : TargetEntity) : Bool :=
  match sa with
  | some c => e.canCollideWith c
  | none => false

/-- Per-entity processing inside the forEach of the controller update: a hit
entity first gets ttd set to the sentinel -1, and then entity.update runs
unconditionally on every entity (the source has no else branch). -/
def stepEntity (sa : Option Coordinate) (e : TargetEntity) : TargetEntity :=
  (if hitBy sa e then { e with ttd := -1 } else e).update

/-- generateNewTarget: pushes one freshly spawned target using the current
difficulty-adjusted max ttd. The Bool records whether the debug assertion
(targets length strictly below the limit) held at the call. -/
def TargetEntityController.generateNewTarget (c : TargetEntityController)
    (rx ry : Int) : TargetEntityController × Bool :=
  ({ c with targets := c.targets ++ [TargetEntity.random rx ry c.currentMaxTdd] },
   decide (c.targets.length < c.targetsLimit))

/-- Result of one controller update: post-state, number of didHit callback
invocations, number of didMiss callback invocations, and whether every
debug assertion evaluated during the update held. -/
structure UpdateResult where
  ctrl : TargetEntityController
  hits : Nat
  misses : Nat
  assertOk : Bool
deriving DecidableEq, Repr

/-- Controller update, in source order: process every entity (hit check, then
unconditional entity tick), fire at most one miss when the shot hit nothing
or some entity reached ttd exactly 0, drop entities with non-positive ttd,
spawn one replacement if below the limit, clear the pending shot, and
decrement the difficulty accumulator by the fixed delta. -/
def TargetEntityController.update (c : TargetEntityController)
    (rx ry : Int) : UpdateResult :=
  let sa := c.shootAt
  let targets1 := c.targets.map (stepEntity sa)
  let numberOfHits := c.targets.countP (hitBy sa)
  let didShotMissedTarget := sa.isSome && numberOfHits == 0
  let didTargetExpired := targets1.any (fun e => e.ttd == 0)
  let misses : Nat := if didShotMissedTarget || didTargetExpired then 1 else 0
  let targets2 := targets1.filter (fun e => decide (0 < e.ttd))
  let c2 : TargetEntityController := { c with targets := targets2 }
  let spawned :=
    if targets2.length < c.targetsLimit then c2.generateNewTarget rx ry
    else (c2, true)
  let c4 : TargetEntityController :=
    { spawned.1 with
      shootAt := none,
      _currentMaxTdd := spawned.1._currentMaxTdd - TARGET_ENTITY_TDD_DIFF_PER_UPDATE }
  ⟨c4, numberOfHits, misses, spawned.2⟩

/-- Single-slot shot mailbox: a left click overwrites the pending shot. -/
def engineDidLeftClick (c : TargetEntityController) (coordinate : Coordinate) :
    TargetEntityController :=
  { c with shootAt := some coordinate }

/-- Global game state: game status (gameConfig.status), the game manager
fields, and the controller the global variable currently points to. -/
structure GameState where
  status : GameStatus
  isGameInProgress : Bool
  currentScore : Int
  currentMiss : Int
  currentLives : Int
  controller : TargetEntityController
deriving DecidableEq, Repr

/-- State right after initialization: NewGame, not in progress, zero score and
misses, starting lives, fresh controller. -/
def initialState : GameState :=
  ⟨GameStatus.NewGame, false, 0, 0, GAME_LIVES_AT_START, TargetEntityController.new⟩

/-- resetGame followed by gameOver: clears the progress flag, constructs a
fresh controller, restores lives, zeroes misses and score, and sets the
status to GameOver. -/
def GameState.resetGame (s : GameState) : GameState :=
  { s with
    isGameInProgress := false,
    controller := TargetEntityController.new,
    currentLives := GAME_LIVES_AT_START,
    currentMiss := 0,
    currentScore := 0,
    status := GameStatus.GameOver }

/-- didMiss: one more miss, one less life; at zero or fewer lives the full
reset runs within the same call. -/
def GameState.didMiss (s : GameState) : GameState :=
  let s1 := { s with currentMiss := s.currentMiss + 1,
                     currentLives := s.currentLives - 1 }
  if s1.currentLives ≤ 0 then s1.resetGame else s1

/-- didHit: one more point. -/
def GameState.didHit (s : GameState) : GameState :=
  { s with currentScore := s.currentScore + 1 }

/-- The play lifecycle function: status becomes Playing and engineDidPlay
sets the progress flag. -/
def GameState.play (s : GameState) : GameState :=
  { s with status := GameStatus.Playing, isGameInProgress := true }

/-- The pause lifecycle function: status becomes Paused and engineDidPause
clears the progress flag. -/
def GameState.pause (s : GameState) : GameState :=
  { s with status := GameStatus.Paused, isGameInProgress := false }

/-- didClick: while not paused, forwards the click coordinate to
engineDidLeftClick, which stores it in the single-slot mailbox. -/
def GameState.didClick (s : GameState) (c : Coordinate) : GameState :=
  if gameConfig.paused s.status then s
  else { s with controller := engineDidLeftClick s.controller c }

/-- engineDidUpdate: while the game is in progress, run the controller
update; its didHit callbacks add to the score before any didMiss runs, and
when didMiss resets the game the freshly constructed controller replaces
the updated one (the source swaps the global controller mid-update, so the
remaining mutations land on the orphaned object). -/
def GameState.engineDidUpdate (s : GameState) (rx ry : Int) : GameState :=
  if s.isGameInProgress then
    let r := s.controller.update rx ry
    let s1 := { s with currentScore := s.currentScore + (r.hits : Int),
                       controller := r.ctrl }
    if r.misses = 1 then s1.didMiss else s1
  else s

/-- States reachable from initialization via the modelled events: play,
pause, canvas click, and a scheduler tick (with spawn-coordinate oracle). -/
inductive Reachable : GameState → Prop where
  | init : Reachable initialState
  | play {s : GameState} : Reachable s → Reachable s.play
  | pause {s : GameState} : Reachable s → Reachable s.pause
  | click {s : GameState} (c : Coordinate) : Reachable s → Reachable (s.didClick c)
  | tick {s : GameState} (rx ry : Int) : Reachable s → Reachable (s.engineDidUpdate rx ry)

/-- triggerGameLoop, wall-clock part: given the reference timestamp and the
current time, returns the new reference timestamp and how many update+draw
cycles ran (0 or 1). A cycle runs exactly when the elapsed time strictly
exceeds the frame interval, and then the reference timestamp becomes now
minus the remainder of elapsed by the interval. -/
def triggerGameLoop (thenTime now : Int) : Int × Nat :=
  let elapsed := now - thenTime
  if elapsed > fpsInterval then (now - elapsed % fpsInterval, 1)
  else (thenTime, 0)

-- helper lemmas

lemma update_misses_le_one (c : TargetEntityController) (rx ry : Int) :
    (c.update rx ry).misses ≤ 1 := by
  unfold TargetEntityController.update
  dsimp only
  split <;> simp

lemma update_hits_eq (c : TargetEntityController) (rx ry : Int) :
    (c.update rx ry).hits = c.targets.countP (hitBy c.shootAt) := rfl

lemma update_misses_iff (c : TargetEntityController) (rx ry : Int) :
    (c.update rx ry).misses = 1 ↔
      (c.shootAt.isSome = true ∧ c.targets.countP (hitBy c.shootAt) = 0) ∨
      ∃ e ∈ c.targets, (stepEntity c.shootAt e).ttd = 0 := by
  unfold TargetEntityController.update
  dsimp only
  split
  · rename_i h
    simp only [Bool.or_eq_true, Bool.and_eq_true, beq_iff_eq, List.any_eq_true,
      List.mem_map] at h
    refine iff_of_true rfl ?_
    rcases h with ⟨h1, h2⟩ | ⟨x, ⟨u, hu, rfl⟩, hx⟩
    · exact Or.inl ⟨h1, h2⟩
    · exact Or.inr ⟨u, hu, hx⟩
  · rename_i h
    simp only [Bool.or_eq_true, Bool.and_eq_true, beq_iff_eq, List.any_eq_true,
      List.mem_map] at h
    push_neg at h
    refine iff_of_false (by decide) ?_
    rintro (⟨ha, hb⟩ | ⟨e, he, h0⟩)
    · exact h.1 ha hb
    · exact h.2 _ ⟨e, he, rfl⟩ h0

lemma update_shootAt_none (c : TargetEntityController) (rx ry : Int) :
    (c.update rx ry).ctrl.shootAt = none := rfl

lemma update_acc_eq (c : TargetEntityController) (rx ry : Int) :
    (c.update rx ry).ctrl._currentMaxTdd =
      c._currentMaxTdd - TARGET_ENTITY_TDD_DIFF_PER_UPDATE := by
  unfold TargetEntityController.update TargetEntityController.generateNewTarget
  dsimp only
  split <;> rfl

lemma update_targetsLimit_eq (c : TargetEntityController) (rx ry : Int) :
    (c.update rx ry).ctrl.targetsLimit = c.targetsLimit := by
  unfold TargetEntityController.update TargetEntityController.generateNewTarget
  dsimp only
  split <;> rfl

-- C2
/-- C2: during one controller update the miss callback fires at most once,
and it fires exactly when a pending shot hit zero entities or some entity
reached ttd exactly 0 during the tick. -/
theorem miss_fires_at_most_once_per_tick (c : TargetEntityController) (rx ry : Int) :
    (c.update rx ry).misses ≤ 1 ∧
    ((c.update rx ry).misses = 1 ↔
      (c.shootAt.isSome = true ∧ (c.update rx ry).hits = 0) ∨
      ∃ e ∈ c.targets, (stepEntity c.shootAt e).ttd = 0) := by
  refine ⟨update_misses_le_one c rx ry, ?_⟩
  rw [update_hits_eq]
  exact update_misses_iff c rx ry

-- C1
/-- C1: an entity with ttd 1 that collides with the pending shot is scored as
a hit: the hit callback fires at least once, the entity itself never reaches
the natural-expiry value 0 during the tick, and any miss fired this tick can
only come from some entity that did reach ttd 0. -/
theorem hit_on_expiring_entity_counts_as_hit (c : TargetEntityController)
    (p : Coordinate) (e : TargetEntity) (rx ry : Int)
    (hsa : c.shootAt = some p) (he : e ∈ c.targets)
    (hcol : e.canCollideWith p = true) (httd : e.ttd = 1) :
    1 ≤ (c.update rx ry).hits ∧
    (stepEntity c.shootAt e).ttd ≠ 0 ∧
    ((c.update rx ry).misses = 1 ↔
      ∃ u ∈ c.targets, (stepEntity c.shootAt u).ttd = 0) := by
  have hhit : hitBy c.shootAt e = true := by
    rw [hsa]; exact hcol
  have hpos : 0 < c.targets.countP (hitBy c.shootAt) :=
    List.countP_pos_iff.mpr ⟨e, he, hhit⟩
  refine ⟨?_, ?_, ?_⟩
  · rw [update_hits_eq]; omega
  · simp [stepEntity, hhit, TargetEntity.update]
  · rw [update_misses_iff]
    constructor
    · rintro (⟨_, h2⟩ | h)
      · omega
      · exact h
    · exact Or.inr

-- C4
/-- C4: starting below or at the target limit, one controller update ends
with at most targetsLimit live targets, and the debug assertion inside
generateNewTarget holds whenever the update invokes it. -/
theorem targets_never_overflow (c : TargetEntityController) (rx ry : Int)
    (h : c.targets.length ≤ c.targetsLimit) :
    (c.update rx ry).ctrl.targets.length ≤ c.targetsLimit ∧
    (c.update rx ry).assertOk = true := by
  have hlen : ((c.targets.map (stepEntity c.shootAt)).filter
      (fun e => decide (0 < e.ttd))).length ≤ c.targets.length := by
    calc ((c.targets.map (stepEntity c.shootAt)).filter
        (fun e => decide (0 < e.ttd))).length
        ≤ (c.targets.map (stepEntity c.shootAt)).length := List.length_filter_le _ _
      _ = c.targets.length := List.length_map _ _
  unfold TargetEntityController.update TargetEntityController.generateNewTarget
  dsimp only
  split
  · rename_i hsp
    constructor
    · simp only [List.length_append, List.length_cons, List.length_nil]
      omega
    · simp only [decide_eq_true_eq]
      exact hsp
  · rename_i hsp
    exact ⟨le_trans hlen h, rfl⟩

-- C6
/-- C6: the spawn difficulty currentMaxTdd never increases across a tick, is
always at least the clamp constant (which equals 10), and the accumulator
drops by exactly the fixed delta each tick. -/
theorem currentMaxTdd_monotone_and_clamped (c : TargetEntityController) (rx ry : Int) :
    (c.update rx ry).ctrl.currentMaxTdd ≤ c.currentMaxTdd ∧
    TARGET_ENTITY_MAX_TTD ≤ c.currentMaxTdd ∧
    (c.update rx ry).ctrl._currentMaxTdd =
      c._currentMaxTdd - TARGET_ENTITY_TDD_DIFF_PER_UPDATE ∧
    TARGET_ENTITY_MAX_TTD = 10 := by
  refine ⟨?_, le_max_right _ _, update_acc_eq c rx ry, rfl⟩
  unfold TargetEntityController.currentMaxTdd
  rw [update_acc_eq]
  refine max_le_max ?_ le_rfl
  apply Int.floor_le_floor
  have : (0 : ℚ) < TARGET_ENTITY_TDD_DIFF_PER_UPDATE := by norm_num [TARGET_ENTITY_TDD_DIFF_PER_UPDATE]
  linarith

-- C3 counterexample
/-- C3 counterexample: a concrete entity at the shot coordinate is hit (the
collision test succeeds), yet after the per-entity processing its ttd is -2,
not the claimed -1: the source ticks hit entities as well. -/
theorem hit_entity_still_ticked_counterexample :
    hitBy (some ⟨0, 0⟩) (TargetEntity.make 0 0 25 1) = true ∧
    (stepEntity (some ⟨0, 0⟩) (TargetEntity.make 0 0 25 1)).ttd = -2 ∧
    ¬ (stepEntity (some ⟨0, 0⟩) (TargetEntity.make 0 0 25 1)).ttd = -1 := by
  decide

-- C3 amended
/-- C3 amended: during entity processing a hit entity has its ttd set to the
sentinel -1 and is then ticked like every other entity, leaving it at -2
(still negative, so distinct from the natural-expiry value 0), while every
entity not hit has its ttd decremented by exactly 1. -/
theorem stepEntity_spec (sa : Option Coordinate) (e : TargetEntity) :
    stepEntity sa e =
      if hitBy sa e then { e with ttd := -2 }
      else { e with ttd := e.ttd - 1 } := by
  unfold stepEntity TargetEntity.update
  split <;> rfl

-- C8
/-- C8: one loop-driver invocation runs at most one update+draw cycle; it
runs one exactly when the elapsed time strictly exceeds the frame interval,
and then the new reference timestamp is now minus (elapsed mod interval);
otherwise the state is untouched, so no catch-up ticks ever occur. -/
theorem triggerGameLoop_single_tick (thenTime now : Int) :
    (triggerGameLoop thenTime now).2 ≤ 1 ∧
    ((triggerGameLoop thenTime now).2 = 1 ↔ fpsInterval < now - thenTime) ∧
    triggerGameLoop thenTime now =
      if fpsInterval < now - thenTime
      then (now - (now - thenTime) % fpsInterval, 1)
      else (thenTime, 0) := by
  unfold triggerGameLoop
  dsimp only
  by_cases h : fpsInterval < now - thenTime <;> simp [h]

-- C9
/-- C9: the pending shot is a single-slot mailbox: recording two shots in a
row leaves the same state as recording only the second, and every controller
update ends with the slot cleared. -/
theorem shot_mailbox_overwrites_and_clears (c : TargetEntityController)
    (c1 c2 : Coordinate) (rx ry : Int) :
    engineDidLeftClick (engineDidLeftClick c c1) c2 = engineDidLeftClick c c2 ∧
    (c.update rx ry).ctrl.shootAt = none :=
  ⟨rfl, update_shootAt_none c rx ry⟩

-- C5
/-- C5: a miss adds one to the miss count and removes one life; when lives
thereby reach 0 the same call performs the full reset: score 0, misses 0,
lives back to the starting constant, status GameOver, and a freshly
constructed controller with no targets, no pending shot and the initial
difficulty accumulator. -/
theorem didMiss_decrements_life_and_resets_at_zero (s : GameState) :
    (2 ≤ s.currentLives →
      s.didMiss = { s with currentMiss := s.currentMiss + 1,
                           currentLives := s.currentLives - 1 }) ∧
    (s.currentLives = 1 →
      s.didMiss = ⟨GameStatus.GameOver, false, 0, 0, GAME_LIVES_AT_START,
                   TargetEntityController.new⟩) ∧
    TargetEntityController.new.targets = [] ∧
    TargetEntityController.new.shootAt = none ∧
    TargetEntityController.new._currentMaxTdd = TARGET_ENTITY_START_TTD := by
  refine ⟨?_, ?_, rfl, rfl, rfl⟩
  · intro h
    unfold GameState.didMiss
    rw [if_neg (by dsimp only; omega)]
  · intro h
    unfold GameState.didMiss
    rw [if_pos (by dsimp only; omega)]
    rfl

lemma reachable_inProgress_iff {s : GameState} (hr : Reachable s) :
    s.isGameInProgress = true ↔ s.status = GameStatus.Playing := by
  induction hr with
  | init => simp [initialState]
  | play h ih => simp [GameState.play]
  | pause h ih => simp [GameState.pause]
  | click c h ih =>
    unfold GameState.didClick
    split
    · exact ih
    · exact ih
  | tick rx ry h ih =>
    unfold GameState.engineDidUpdate
    split
    · rename_i hin
      dsimp only
      split
      · unfold GameState.didMiss
        dsimp only
        split
        · simp [GameState.resetGame]
        · exact ih
      · exact ih
    · exact ih

-- C10
/-- C10: in every reachable state the in-progress flag of the game manager is
true exactly when the status is Playing, and the derived paused predicate
equals the negation of that flag. -/
theorem flag_matches_status (s : GameState) (hr : Reachable s) :
    (s.isGameInProgress = true ↔ s.status = GameStatus.Playing) ∧
    gameConfig.paused s.status = !s.isGameInProgress := by
  have hiff := reachable_inProgress_iff hr
  refine ⟨hiff, ?_⟩
  cases hst : s.status <;>
    simp only [hst] at hiff ⊢ <;>
    simp only [gameConfig.paused] <;>
    cases hflag : s.isGameInProgress <;>
    simp_all <;> decide

/-- C10 witness: the initial state is reachable and satisfies both parts. -/
theorem flag_matches_status_witness :
    (initialState.isGameInProgress = true ↔
      initialState.status = GameStatus.Playing) ∧
    gameConfig.paused initialState.status = !initialState.isGameInProgress :=
  flag_matches_status initialState Reachable.init

-- C7
/-- C7: in any reachable state whose status is not Playing, a game-loop
update is a no-op: the whole state, and in particular the controller, is
unchanged. -/
theorem controller_frozen_when_not_playing (s : GameState) (rx ry : Int)
    (hr : Reachable s) (hs : s.status ≠ GameStatus.Playing) :
    (s.engineDidUpdate rx ry).controller = s.controller ∧
    s.engineDidUpdate rx ry = s := by
  have hiff := reachable_inProgress_iff hr
  have hflag : s.isGameInProgress = false := by
    cases hflag : s.isGameInProgress
    · rfl
    · exact absurd (hiff.mp hflag) hs
  have hupd : s.engineDidUpdate rx ry = s := by
    unfold GameState.engineDidUpdate
    rw [hflag]
    rfl
  exact ⟨by rw [hupd], hupd⟩

/-- C7 witness: the initial state is reachable, not Playing, and a tick on it
changes nothing. -/
theorem controller_frozen_when_not_playing_witness :
    (initialState.engineDidUpdate 3 4).controller = initialState.controller ∧
    initialState.engineDidUpdate 3 4 = initialState :=
  controller_frozen_when_not_playing initialState 3 4 Reachable.init (by decide)

/-- Concrete entity for the C1 witness: centered on the shot, one tick left. -/
def entityAtShot : TargetEntity := TargetEntity.make 100 100 25 1

/-- Concrete shot coordinate for the C1 witness. -/
def shotPoint : Coordinate := ⟨100, 100⟩

/-- Concrete controller for the C1 witness. -/
def ctrlAtShot : TargetEntityController := ⟨[entityAtShot], 1, some shotPoint, 30⟩

/-- C1 witness: the concrete about-to-expire entity under the shot is scored
as a hit and never reaches the natural-expiry value. -/
theorem hit_on_expiring_entity_counts_as_hit_witness :
    ctrlAtShot.shootAt = some shotPoint ∧
    entityAtShot ∈ ctrlAtShot.targets ∧
    entityAtShot.canCollideWith shotPoint = true ∧
    entityAtShot.ttd = 1 ∧
    (1 ≤ (ctrlAtShot.update 7 8).hits ∧
     (stepEntity ctrlAtShot.shootAt entityAtShot).ttd ≠ 0 ∧
     ((ctrlAtShot.update 7 8).misses = 1 ↔
       ∃ u ∈ ctrlAtShot.targets, (stepEntity ctrlAtShot.shootAt u).ttd = 0)) :=
  ⟨rfl, by decide, by decide, by decide,
   hit_on_expiring_entity_counts_as_hit ctrlAtShot shotPoint entityAtShot 7 8
     rfl (by decide) (by decide) (by decide)⟩

/-- C4 witness: the fresh controller starts below the limit and one tick
keeps the target count at the limit with the assertion holding. -/
theorem targets_never_overflow_witness :
    TargetEntityController.new.targets.length ≤
      TargetEntityController.new.targetsLimit ∧
    ((TargetEntityController.new.update 2 3).ctrl.targets.length ≤
        TargetEntityController.new.targetsLimit ∧
     (TargetEntityController.new.update 2 3).assertOk = true) :=
  ⟨by decide, targets_never_overflow TargetEntityController.new 2 3 (by decide)⟩

/-- Concrete mid-game state with three lives for the C5 witness. -/
def stateThreeLives : GameState :=
  ⟨GameStatus.Playing, true, 7, 2, 3, TargetEntityController.new⟩

/-- Concrete mid-game state with one life for the C5 witness. -/
def stateOneLife : GameState :=
  ⟨GameStatus.Playing, true, 7, 2, 1, TargetEntityController.new⟩

/-- C5 witness: on the three-lives state a miss only bumps the counters; on
the one-life state the same call performs the full reset. -/
theorem didMiss_decrements_life_and_resets_at_zero_witness :
    (2 ≤ stateThreeLives.currentLives ∧
      stateThreeLives.didMiss =
        { stateThreeLives with
          currentMiss := stateThreeLives.currentMiss + 1,
          currentLives := stateThreeLives.currentLives - 1 }) ∧
    (stateOneLife.currentLives = 1 ∧
      stateOneLife.didMiss =
        ⟨GameStatus.GameOver, false, 0, 0, GAME_LIVES_AT_START,
         TargetEntityController.new⟩) :=
  ⟨⟨by decide, (didMiss_decrements_life_and_resets_at_zero stateThreeLives).1
      (by decide)⟩,
   ⟨rfl, (didMiss_decrements_life_and_resets_at_zero stateOneLife).2.1 rfl⟩⟩
